import Mathlib

/-!
Verification of the Account and Ledger API of Insight-Hunter ih_v2-0-1.

The embedded program is the Cloudflare Worker in src/unnamed/part_008: a single
`fetch` entry point routing POST /api/auth/signup, POST /api/auth/login,
GET /api/metrics, GET /api/transactions and POST /api/transactions over a D1
(SQLite) store whose schema is src/unnamed/part_010 (users with UNIQUE email,
transactions with a (user_id, date DESC) index).

Modelling conventions:
- A parsed JSON body is an association list of string keys to `JVal`; an
  unparseable body is `none` (parseJSON in the source returns null from its
  catch arm, so parse failure and null body coincide).
- D1 rows are Lean structures; a table is the list of its rows in rowid
  (insertion) order; the store-assigned id is the rowid.
- SQLite TEXT comparison (date >= ?, date <= ?, ORDER BY date) is byte-wise;
  it is embedded as `strLe`, lexicographic comparison of the char lists.
- The third-party libraries bcryptjs and tsndr cloudflare-worker-jwt are not
  part of the repository; they are modelled from the spec (sections 4.2, 4.3)
  at their call boundary, see `bcryptHash` and `jwtVerify`.
- Each awaited D1 call is one atomic step; uncaught rejections of those calls
  surface as the `Except.error` branch of `fetch`.
-/

namespace IH2

/-- A primitive JSON value as the worker sees it after `req.json()`. -/
inductive JVal where
  | str (s : String)
  | num (q : Rat)
  | bool (b : Bool)
  | null
  deriving Repr, DecidableEq

/-- A parsed JSON object body: association list of fields. -/
structure JBody where
  fields : List (String × JVal)
  deriving Repr, DecidableEq

/-- JS property access `data.k` on a parsed object; `none` is `undefined`. -/
def JBody.get (b : JBody) (k : String) : Option JVal :=
  (b.fields.find? (fun p => p.1 == k)).map (fun p => p.2)

/-- Property access through the `parseJSON` result; `none` body means the JSON
did not parse (or the field is absent). -/
def jGet (d : Option JBody) (k : String) : Option JVal :=
  d.bind (fun b => b.get k)

/-- Lexicographic comparison of char lists: the SQLite byte-wise TEXT order
used by `date >= ?`, `date <= ?` and `ORDER BY date` on the date column. -/
def clLe : List Char → List Char → Bool
  | [], _ => true
  | _ :: _, [] => false
  | a :: as, b :: bs =>
    if a < b then true
    else if b < a then false
    else clLe as bs

/-- SQLite TEXT `<=` on strings. -/
def strLe (s t : String) : Bool := clLe s.data t.data

/-- Modelled from the spec: bcryptjs is a third-party dependency, not in the
repository source. Per section 4.2 a hash is one-way and salted; the model
keeps the plaintext and salt so that `bcryptCompare` can check the plaintext
and distinct salts give distinct hashes. One-wayness is not needed by any
claim and is not modelled. -/
structure BHash where
  pw : String
  salt : Nat
  deriving Repr, DecidableEq

/-- Model of `bcrypt.hash(plaintext, cost)`; the salt argument stands for the
randomness drawn inside the library. -/
def bcryptHash (plaintext : String) (salt : Nat) : BHash := ⟨plaintext, salt⟩

/-- Model of `bcrypt.compare(plaintext, hash)`. -/
def bcryptCompare (plaintext : String) (h : BHash) : Bool := h.pw == plaintext

/-- The claims a login token carries: `jwt.sign(\x7b id, email, exp \x7d, secret)`. -/
structure TokenClaims where
  id : Nat
  email : String
  exp : Int
  deriving Repr, DecidableEq

/-- A bearer token: either a well-formed token signed with some secret, or a
structurally malformed string. -/
inductive Tok where
  | signed (payload : TokenClaims) (secret : String)
  | malformed (s : String)
  deriving Repr, DecidableEq

/-- Model of `jwt.sign(payload, secret)`. -/
def jwtSign (payload : TokenClaims) (secret : String) : Tok := .signed payload secret

/-- Modelled from the spec: tsndr cloudflare-worker-jwt is a third-party
dependency, not in the repository source. Per section 4.3 verification fails
when the signature does not match the key and fails when the current time is
at or past the embedded expiry, and succeeds strictly before it. The worker
only observes the boolean. -/
def jwtVerify (t : Tok) (key : String) (now : Int) : Bool :=
  match t with
  | .signed p sec => sec == key && decide (now < p.exp)
  | .malformed _ => false

/-- Model of `jwt.decode(token)?.payload`. -/
def jwtDecode (t : Tok) : Option TokenClaims :=
  match t with
  | .signed p _ => some p
  | .malformed _ => none

/-- A row of the `users` table (schema src/unnamed/part_010): rowid, UNIQUE
email, password hash column, in rowid order inside `DB.users`. -/
structure UserRow where
  id : Nat
  email : String
  password : BHash
  deriving Repr, DecidableEq

/-- A row of the `transactions` table. `description` and `category` hold the
bound JS value (the source binds `data.description || null`). -/
structure TxRow where
  id : Nat
  user_id : Nat
  date : String
  description : JVal
  category : JVal
  amount : Rat
  «type» : String
  deriving Repr, DecidableEq

/-- The D1 database: each table as its list of rows in rowid order, plus the
next AUTOINCREMENT ids. -/
structure DB where
  users : List UserRow
  transactions : List TxRow
  nextUserId : Nat
  nextTxId : Nat
  deriving Repr, DecidableEq

def emptyDB : DB := ⟨[], [], 1, 1⟩

/-- An error thrown by an awaited D1 call and not caught by the worker:
a UNIQUE constraint violation on INSERT, a FOREIGN KEY constraint violation
on INSERT, or binding a non-finite number (NaN from `parseInt`) as a
parameter. -/
inductive StoreErr where
  | uniqueViolation
  | fkViolation
  | badBind
  deriving Repr, DecidableEq

/-- SELECT ... FROM users WHERE email = ? ... .first() -/
def usersFindByEmail (db : DB) (email : String) : Option UserRow :=
  db.users.find? (fun u => u.email == email)

/-- INSERT INTO users (email, password) VALUES (?, ?): the store enforces the
UNIQUE(email) constraint of the schema and rejects a duplicate insert. -/
def usersInsert (db : DB) (email : String) (pw : BHash) : Except StoreErr DB :=
  if db.users.any (fun u => u.email == email) then .error .uniqueViolation
  else .ok { db with
    users := db.users ++ [⟨db.nextUserId, email, pw⟩],
    nextUserId := db.nextUserId + 1 }

/-- INSERT INTO transactions (user_id, date, description, category, amount,
type): the store enforces the schema's FOREIGN KEY (user_id) REFERENCES
users(id) constraint (src/unnamed/part_010, enforced by D1), rejecting a
write whose user_id matches no users row. -/
def txInsert (db : DB) (uid : Nat) (date : String) (descr categ : JVal)
    (amount : Rat) (ty : String) : Except StoreErr DB :=
  if db.users.any (fun u => u.id == uid) then
    .ok { db with
      transactions := db.transactions ++ [⟨db.nextTxId, uid, date, descr, categ, amount, ty⟩],
      nextTxId := db.nextTxId + 1 }
  else .error .fkViolation

/-- One insertion step of the date-descending sort. -/
def insertDateDesc (t : TxRow) : List TxRow → List TxRow
  | [] => [t]
  | h :: tl => if strLe h.date t.date then t :: h :: tl else h :: insertDateDesc t tl

/-- ORDER BY date DESC. The query has no secondary sort key; rows with equal
dates are returned in the order the (user_id, date DESC) index yields them,
which is rowid (insertion) order ascending. This is embedded as a stable
descending sort over the rowid-ordered table. -/
def sortDateDesc (l : List TxRow) : List TxRow := l.foldr insertDateDesc []

/-- JS truthiness test `if (startDate)` on a searchParams result: null and the
empty string are falsy, so an absent or empty parameter adds no filter. -/
def presentParam (p : Option String) : Option String :=
  match p with
  | some s => if s.isEmpty then none else some s
  | none => none

/-- The optional `date >= ?` and `date <= ?` filters of the GET query. -/
def dateFilterOk (startD endD : Option String) (t : TxRow) : Bool :=
  (match startD with
   | some s => strLe s t.date
   | none => true) &&
  (match endD with
   | some e => strLe t.date e
   | none => true)

/-- LIMIT ? OFFSET ? semantics of SQLite: a negative OFFSET acts as zero and a
negative LIMIT means no upper bound. -/
def applyLimitOffset (lim off : Int) (l : List TxRow) : List TxRow :=
  let l2 := l.drop (max off 0).toNat
  if lim < 0 then l2 else l2.take lim.toNat

/-- The full GET /api/transactions query:
SELECT * FROM transactions WHERE user_id = ? [AND date >= ?] [AND date <= ?]
ORDER BY date DESC LIMIT ? OFFSET ?. -/
def txList (db : DB) (uid : Nat) (startD endD : Option String) (lim off : Int) : List TxRow :=
  applyLimitOffset lim off
    (sortDateDesc (db.transactions.filter
      (fun t => t.user_id == uid && dateFilterOk startD endD t)))

/-- A char allowed in the email regex classes: not whitespace and not @. -/
def noWsNoAt (c : Char) : Bool := !c.isWhitespace && c != '@'

/-- The email regex of the source anchored over the whole string:
one or more non-ws non-@ chars, an @, one or more non-ws non-@ chars
containing a dot with nonempty parts on both sides. -/
def emailRegexTest (s : String) : Bool :=
  let l := s.data
  let lp := l.takeWhile (fun c => c != '@')
  let dom := l.drop (lp.length + 1)
  !lp.isEmpty && lp.all noWsNoAt && !dom.isEmpty && dom.all noWsNoAt &&
    ((dom.drop 1).dropLast).contains '.'

/-- validateEmail of the source: a string matching the regex. -/
def validateEmail (email : Option JVal) : Bool :=
  match email with
  | some (.str s) => emailRegexTest s
  | _ => false

/-- validatePassword of the source: a string of length at least 6. -/
def validatePassword (password : Option JVal) : Bool :=
  match password with
  | some (.str s) => decide (6 ≤ s.length)
  | _ => false

/-- JS `s.trim()` is truthy, i.e. some char is not whitespace. -/
def hasNonWs (s : String) : Bool := s.data.any (fun c => !c.isWhitespace)

/-- validateTransaction of the source: body present, `date` a string with a
nonblank trim, `amount` a number, `type` a string with a nonblank trim. -/
def validateTransaction (data : Option JBody) : Bool :=
  match data with
  | none => false
  | some d =>
    (match d.get "date" with
     | some (.str s) => hasNonWs s
     | _ => false) &&
    (match d.get "amount" with
     | some (.num _) => true
     | _ => false) &&
    (match d.get "type" with
     | some (.str s) => hasNonWs s
     | _ => false)

/-- JS `parseInt(s, 10)`: skip whitespace, optional sign, longest digit run;
`none` is NaN. -/
def parseIntJS (s : String) : Option Int :=
  let l := s.data.dropWhile (fun c => c.isWhitespace)
  let sn : Int × List Char :=
    match l with
    | '-' :: r => (-1, r)
    | '+' :: r => (1, r)
    | r => (1, r)
  let ds := sn.2.takeWhile (fun c => c.isDigit)
  if ds.isEmpty then none
  else some (sn.1 * (ds.foldl (fun a c => a * 10 + (c.toNat - 48)) 0 : Nat))

/-- JS `p || d` on a searchParams result: null and the empty string fall back
to the default. -/
def orDefault (p : Option String) (d : String) : String :=
  match p with
  | some s => if s.isEmpty then d else s
  | none => d

/-- The limit computation of the GET route:
Math.min(parseInt(url.searchParams.get('limit') || '50', 10), 100). -/
def limitVal (p : Option String) : Option Int :=
  (parseIntJS (orDefault p "50")).map (fun n => min n 100)

/-- The offset computation: parseInt(url.searchParams.get('offset') || '0', 10). -/
def offsetVal (p : Option String) : Option Int :=
  parseIntJS (orDefault p "0")

/-- The Authorization header: absent, not of the `Bearer ` shape, or a bearer
token (the source slices off the 7-char prefix). -/
inductive AuthHeader where
  | missing
  | notBearer (s : String)
  | bearer (t : Tok)
  deriving Repr, DecidableEq

/-- verifyToken of the source: require the Bearer shape, `jwt.verify` the
token against the env secret, and return the decoded payload. -/
def verifyToken (h : AuthHeader) (secret : String) (now : Int) : Option TokenClaims :=
  match h with
  | .bearer t => if jwtVerify t secret now then jwtDecode t else none
  | _ => none

/-- The worker environment binding: the signing secret. -/
structure Env where
  JWT_SECRET : String
  deriving Repr, DecidableEq

/-- An inbound request: path and method of the URL, the `parseJSON` result of
the body (`none` when `req.json()` rejects), the Authorization header, and
`url.searchParams.get`. -/
structure Req where
  path : String
  method : String
  body : Option JBody
  auth : AuthHeader
  searchParams : String → Option String

/-- The JSON response bodies the worker builds, one constructor per shape. -/
inductive RBody where
  | errMsg (error : String)
  | msg (message : String)
  | token (t : Tok)
  | metrics (totalRevenue monthlyGrowth cashFlow : Rat)
  | txns (transactions : List TxRow) (limit offset count : Int)
  deriving Repr, DecidableEq

/-- createJsonResponse: a status and a JSON body. -/
structure Response where
  status : Nat
  body : RBody
  deriving Repr, DecidableEq

def jsTruthy (v : JVal) : Bool :=
  match v with
  | .str s => !s.isEmpty
  | .num q => decide (q ≠ 0)
  | .bool b => b
  | .null => false

/-- JS `v || null` over an optional property: the value when truthy, else null. -/
def jsOrNull (v : Option JVal) : JVal :=
  match v with
  | some x => if jsTruthy x then x else .null
  | none => .null

/-- The string content of a body field; only read on paths where the
validators have established the field is a string. -/
def bodyStr (d : Option JBody) (k : String) : String :=
  match jGet d k with
  | some (.str s) => s
  | _ => ""

/-- The numeric content of a body field; only read on paths where
validateTransaction has established the field is a number. -/
def bodyNum (d : Option JBody) (k : String) : Rat :=
  match jGet d k with
  | some (.num q) => q
  | _ => 0

/-- The signup handler after its first awaited D1 call (the SELECT uniqueness
check): 409 when the check found a row, else hash and INSERT. -/
def signupAfterCheck (check : Option UserRow) (db : DB) (email : String) (pw : BHash) :
    Except StoreErr Response × DB :=
  match check with
  | some _ => (.ok ⟨409, .errMsg "Email already registered"⟩, db)
  | none =>
    match usersInsert db email pw with
    | .error e => (.error e, db)
    | .ok db2 => (.ok ⟨201, .msg "User created"⟩, db2)

/-- POST /api/auth/signup. -/
def handleSignup (req : Req) (db : DB) (salt : Nat) : Except StoreErr (Response × DB) :=
  if !(validateEmail (jGet req.body "email") && validatePassword (jGet req.body "password")) then
    .ok (⟨400, .errMsg "Invalid email or password"⟩, db)
  else
    let email := bodyStr req.body "email"
    let r := signupAfterCheck (usersFindByEmail db email) db email
      (bcryptHash (bodyStr req.body "password") salt)
    r.1.map (fun resp => (resp, r.2))

/-- POST /api/auth/login. `now` is Math.floor(Date.now() / 1000). -/
def handleLogin (req : Req) (env : Env) (db : DB) (now : Int) :
    Except StoreErr (Response × DB) :=
  if !(validateEmail (jGet req.body "email") && validatePassword (jGet req.body "password")) then
    .ok (⟨400, .errMsg "Invalid email or password"⟩, db)
  else
    match usersFindByEmail db (bodyStr req.body "email") with
    | none => .ok (⟨401, .errMsg "Invalid credentials"⟩, db)
    | some user =>
      if !(bcryptCompare (bodyStr req.body "password") user.password) then
        .ok (⟨401, .errMsg "Invalid credentials"⟩, db)
      else
        .ok (⟨200, .token (jwtSign ⟨user.id, user.email, now + 7 * 24 * 60 * 60⟩
          env.JWT_SECRET)⟩, db)

/-- GET /api/transactions for the authenticated user id. -/
def handleGetTx (req : Req) (uid : Nat) (db : DB) : Except StoreErr (Response × DB) :=
  match limitVal (req.searchParams "limit"), offsetVal (req.searchParams "offset") with
  | some lim, some off =>
    let startD := presentParam (req.searchParams "startDate")
    let endD := presentParam (req.searchParams "endDate")
    let page := txList db uid startD endD lim off
    .ok (⟨200, .txns page lim off (page.length : Int)⟩, db)
  | _, _ => .error .badBind

/-- POST /api/transactions for the authenticated user id. -/
def handlePostTx (req : Req) (uid : Nat) (db : DB) : Except StoreErr (Response × DB) :=
  if !(validateTransaction req.body) then
    .ok (⟨400, .errMsg "Invalid transaction data"⟩, db)
  else
    match txInsert db uid (bodyStr req.body "date")
        (jsOrNull (jGet req.body "description"))
        (jsOrNull (jGet req.body "category"))
        (bodyNum req.body "amount")
        (bodyStr req.body "type") with
    | .error e => .error e
    | .ok db2 => .ok (⟨201, .msg "Transaction added"⟩, db2)

/-- The worker entry point: route on path and method, authenticate everything
past the two auth routes, 404 otherwise (src/unnamed/part_008, fetch). -/
def fetch (req : Req) (env : Env) (db : DB) (now : Int) (salt : Nat) :
    Except StoreErr (Response × DB) :=
  if req.path = "/api/auth/signup" ∧ req.method = "POST" then
    handleSignup req db salt
  else if req.path = "/api/auth/login" ∧ req.method = "POST" then
    handleLogin req env db now
  else
    match verifyToken req.auth env.JWT_SECRET now with
    | none => .ok (⟨401, .errMsg "Unauthorized"⟩, db)
    | some decoded =>
      if req.path = "/api/metrics" ∧ req.method = "GET" then
        .ok (⟨200, .metrics 100000 (21 / 2) 50000⟩, db)
      else if req.path = "/api/transactions" ∧ req.method = "GET" then
        handleGetTx req decoded.id db
      else if req.path = "/api/transactions" ∧ req.method = "POST" then
        handlePostTx req decoded.id db
      else
        .ok (⟨404, .errMsg "Not found"⟩, db)

/-- One interleaving of two concurrent signup requests for the same email,
both bodies already validated: each request runs the same two awaited D1 steps
as `handleSignup`, and the schedule lets both SELECT uniqueness checks resolve
against the same store snapshot before either INSERT runs. -/
def signupRace (db : DB) (email : String) (pw1 pw2 : BHash) :
    Except StoreErr Response × Except StoreErr Response × DB :=
  let c1 := usersFindByEmail db email
  let c2 := usersFindByEmail db email
  let r1 := signupAfterCheck c1 db email pw1
  let r2 := signupAfterCheck c2 r1.2 email pw2
  (r1.1, r2.1, r2.2)

/-- The date field passes the source check: a string whose trim is nonblank. -/
def dateFieldOk (d : Option JBody) : Prop :=
  ∃ s, jGet d "date" = some (.str s) ∧ hasNonWs s = true

/-- The amount field passes the source check: a number. -/
def amountFieldOk (d : Option JBody) : Prop :=
  ∃ q, jGet d "amount" = some (.num q)

/-- The type field passes the source check: a string whose trim is nonblank. -/
def typeFieldOk (d : Option JBody) : Prop :=
  ∃ s, jGet d "type" = some (.str s) ∧ hasNonWs s = true

/-- The date-descending order the response list must satisfy. -/
def txAfter (a b : TxRow) : Prop := strLe b.date a.date = true

/- Concrete fixtures used to evaluate the worker on closed inputs. -/

def cEnv : Env := ⟨"test-secret"⟩

def cClaims : TokenClaims := ⟨1, "test@example.com", 100⟩

def cTok : Tok := jwtSign cClaims "test-secret"

def noParams : String → Option String := fun _ => none

def mkParams (lim off startD endD : Option String) : String → Option String :=
  fun k =>
    if k = "limit" then lim
    else if k = "offset" then off
    else if k = "startDate" then startD
    else if k = "endDate" then endD
    else none

def getTxReq (auth : AuthHeader) (params : String → Option String) : Req :=
  ⟨"/api/transactions", "GET", none, auth, params⟩

def postTxReq (auth : AuthHeader) (body : Option JBody) : Req :=
  ⟨"/api/transactions", "POST", body, auth, noParams⟩

def signupReq (body : Option JBody) : Req :=
  ⟨"/api/auth/signup", "POST", body, .missing, noParams⟩

def loginReq (body : Option JBody) : Req :=
  ⟨"/api/auth/login", "POST", body, .missing, noParams⟩

def authBody (email pw : String) : Option JBody :=
  some ⟨[("email", .str email), ("password", .str pw)]⟩

def tx1200 : TxRow := ⟨1, 1, "2025-09-01", .str "Stripe Payment", .str "Revenue", 1200, "income"⟩

def txNeg150 : TxRow := ⟨2, 1, "2025-09-03", .str "Office Supplies", .str "Expense", -150, "expense"⟩

def cDbSpec : DB := ⟨[], [tx1200, txNeg150], 1, 3⟩

def txOther : TxRow := ⟨3, 2, "2025-09-02", .null, .null, -50, "expense"⟩

def cDbTwoUsers : DB := ⟨[], [tx1200, txNeg150, txOther], 1, 4⟩

def txT1 : TxRow := ⟨1, 1, "2025-09-01", .null, .null, 10, "income"⟩

def txT2 : TxRow := ⟨2, 1, "2025-09-01", .null, .null, 20, "income"⟩

def cDbTie : DB := ⟨[], [txT1, txT2], 1, 3⟩

def sarah : UserRow := ⟨1, "sarah@example.com", bcryptHash "secret456" 3⟩

def cDbSarah : DB := ⟨[sarah], [], 2, 1⟩

def cBadTxBody : Option JBody :=
  some ⟨[("date", .str "2025-13-45"), ("amount", .num 5), ("type", .str "banana")]⟩

def cNoAmountBody : Option JBody :=
  some ⟨[("date", .str "2025-09-01"), ("amount", .str "5"), ("type", .str "income")]⟩

def dupSignupBody : Option JBody := authBody "dup@example.com" "password123"

/-- The store state a successful signup leaves behind: the new user row
appended with the next rowid. -/
def dbAfterSignup (db : DB) (e : String) (pw : BHash) : DB :=
  { db with users := db.users ++ [⟨db.nextUserId, e, pw⟩], nextUserId := db.nextUserId + 1 }

def cDbDup : DB := ⟨[⟨1, "dup@example.com", bcryptHash "password123" 1⟩], [], 2, 1⟩

/-- Decidable equality of worker outcomes, for evaluating `fetch` on closed
inputs. -/
instance instDecEqExcept {ε α : Type} [DecidableEq ε] [DecidableEq α] :
    DecidableEq (Except ε α)
  | .error e1, .error e2 =>
    if h : e1 = e2 then .isTrue (congrArg Except.error h)
    else .isFalse (fun hc => h (Except.error.inj hc))
  | .error _, .ok _ => .isFalse (fun hc => Except.noConfusion hc)
  | .ok _, .error _ => .isFalse (fun hc => Except.noConfusion hc)
  | .ok a1, .ok a2 =>
    if h : a1 = a2 then .isTrue (congrArg Except.ok h)
    else .isFalse (fun hc => h (Except.ok.inj hc))

/- General lemmas about the embedded store and router. -/

theorem clLe_total (x y : List Char) (h : clLe x y = false) : clLe y x = true := by
  induction x generalizing y with
  | nil => simp [clLe] at h
  | cons a as ih =>
    cases y with
    | nil => simp [clLe]
    | cons b bs =>
      simp only [clLe] at h ⊢
      rcases lt_trichotomy a b with hab | hab | hab
      · simp [hab, not_lt.mpr hab.le] at h
      · subst hab
        simp [lt_irrefl] at h ⊢
        exact ih _ h
      · simp [hab, not_lt.mpr hab.le] at h ⊢

theorem clLe_trans {x y z : List Char} (h1 : clLe x y = true) (h2 : clLe y z = true) :
    clLe x z = true := by
  induction x generalizing y z with
  | nil => simp [clLe]
  | cons a as ih =>
    cases y with
    | nil => simp [clLe] at h1
    | cons b bs =>
      cases z with
      | nil => simp [clLe] at h2
      | cons c cs =>
        simp only [clLe] at h1 h2 ⊢
        rcases lt_trichotomy a b with hab | hab | hab
        · rcases lt_trichotomy b c with hbc | hbc | hbc
          · simp [lt_trans hab hbc]
          · subst hbc; simp [hab]
          · rcases lt_trichotomy a c with hac | hac | hac
            · simp [hac]
            · subst hac; simp [lt_irrefl]
              simp [hbc, not_lt.mpr hbc.le] at h2
            · simp [hbc, not_lt.mpr hbc.le] at h2
        · subst hab
          rcases lt_trichotomy a c with hac | hac | hac
          · simp [hac]
          · subst hac
            simp [lt_irrefl] at h1 h2 ⊢
            exact ih h1 h2
          · simp [hac, not_lt.mpr hac.le] at h2
        · simp [hab, not_lt.mpr hab.le] at h1

theorem strLe_total {s t : String} (h : strLe s t = false) : strLe t s = true :=
  clLe_total _ _ h

theorem strLe_trans {s t u : String} (h1 : strLe s t = true) (h2 : strLe t u = true) :
    strLe s u = true :=
  clLe_trans h1 h2

theorem mem_insertDateDesc {a t : TxRow} {l : List TxRow}
    (h : a ∈ insertDateDesc t l) : a = t ∨ a ∈ l := by
  induction l with
  | nil => simpa [insertDateDesc] using h
  | cons b bs ih =>
    simp only [insertDateDesc] at h
    split at h
    · exact List.mem_cons.mp h
    · rcases List.mem_cons.mp h with hb | hrest
      · exact Or.inr (by simp [hb])
      · rcases ih hrest with h1 | h2
        · exact Or.inl h1
        · exact Or.inr (List.mem_cons_of_mem _ h2)

theorem mem_sortDateDesc {a : TxRow} {l : List TxRow}
    (h : a ∈ sortDateDesc l) : a ∈ l := by
  induction l with
  | nil => exact h
  | cons b bs ih =>
    have h2 : a ∈ insertDateDesc b (sortDateDesc bs) := h
    rcases mem_insertDateDesc h2 with h3 | h3
    · simp [h3]
    · exact List.mem_cons_of_mem _ (ih h3)

theorem pairwise_insertDateDesc {t : TxRow} {l : List TxRow}
    (hl : l.Pairwise txAfter) : (insertDateDesc t l).Pairwise txAfter := by
  induction l with
  | nil => simp [insertDateDesc, List.Pairwise]
  | cons b bs ih =>
    rcases List.pairwise_cons.mp hl with ⟨hb, hbs⟩
    by_cases hcmp : strLe b.date t.date = true
    · rw [show insertDateDesc t (b :: bs) = t :: b :: bs by
        simp [insertDateDesc, hcmp]]
      refine List.pairwise_cons.mpr ⟨?_, hl⟩
      intro x hx
      rcases List.mem_cons.mp hx with h1 | h2
      · show strLe x.date t.date = true
        rw [h1]
        exact hcmp
      · exact strLe_trans (hb x h2) hcmp
    · have hf : strLe b.date t.date = false := by simpa using hcmp
      rw [show insertDateDesc t (b :: bs) = b :: insertDateDesc t bs by
        simp [insertDateDesc, hf]]
      refine List.pairwise_cons.mpr ⟨?_, ih hbs⟩
      intro x hx
      rcases mem_insertDateDesc hx with h1 | h2
      · show strLe x.date b.date = true
        rw [h1]
        exact strLe_total hf
      · exact hb x h2

theorem pairwise_sortDateDesc (l : List TxRow) : (sortDateDesc l).Pairwise txAfter := by
  induction l with
  | nil => simp [sortDateDesc, List.Pairwise]
  | cons b bs ih => exact pairwise_insertDateDesc ih

theorem mem_applyLimitOffset {a : TxRow} {lim off : Int} {l : List TxRow}
    (h : a ∈ applyLimitOffset lim off l) : a ∈ l := by
  simp only [applyLimitOffset] at h
  split at h
  · exact List.drop_subset _ _ h
  · exact List.drop_subset _ _ (List.take_subset _ _ h)

theorem pairwise_applyLimitOffset {lim off : Int} {l : List TxRow}
    (h : l.Pairwise txAfter) : (applyLimitOffset lim off l).Pairwise txAfter := by
  simp only [applyLimitOffset]
  split
  · exact h.sublist (List.drop_sublist _ _)
  · exact h.sublist ((List.take_sublist _ _).trans (List.drop_sublist _ _))

theorem mem_txList_user_id {t : TxRow} {db : DB} {uid : Nat} {sd ed : Option String}
    {lim off : Int} (h : t ∈ txList db uid sd ed lim off) : t.user_id = uid := by
  have h1 : t ∈ sortDateDesc (db.transactions.filter
      (fun t => t.user_id == uid && dateFilterOk sd ed t)) := mem_applyLimitOffset h
  have h2 := mem_sortDateDesc h1
  have h3 := (List.mem_filter.mp h2).2
  simp only [Bool.and_eq_true, beq_iff_eq] at h3
  exact h3.1

theorem pairwise_txList {db : DB} {uid : Nat} {sd ed : Option String} {lim off : Int} :
    (txList db uid sd ed lim off).Pairwise txAfter :=
  pairwise_applyLimitOffset (pairwise_sortDateDesc _)

theorem clLe_refl (x : List Char) : clLe x x = true := by
  induction x with
  | nil => rfl
  | cons a as ih => simp [clLe, lt_irrefl, ih]

theorem strLe_refl (s : String) : strLe s s = true :=
  clLe_refl s.data

/-- Stability of one insertion step: an equal-date pair of the output either
came as a pair of the input, or its first element is the inserted one. A pair
whose second element is the inserted row and whose first is an equal-date
input row cannot occur: every row placed before the inserted one has a
strictly larger date. -/
theorem sublist_pair_insertDateDesc {a b t : TxRow} {m : List TxRow}
    (hdate : a.date = b.date) (h : [a, b].Sublist (insertDateDesc t m)) :
    [a, b].Sublist m ∨ (a = t ∧ b ∈ m) := by
  induction m with
  | nil =>
    simp only [insertDateDesc] at h
    cases h with
    | cons _ h2 => cases h2
    | cons₂ _ h2 => cases h2
  | cons hd tl ih =>
    by_cases hc : strLe hd.date t.date = true
    · rw [show insertDateDesc t (hd :: tl) = t :: hd :: tl by
        simp [insertDateDesc, hc]] at h
      cases h with
      | cons _ h2 => exact Or.inl h2
      | cons₂ _ h2 => exact Or.inr ⟨rfl, List.singleton_sublist.mp h2⟩
    · have hf : strLe hd.date t.date = false := by simpa using hc
      rw [show insertDateDesc t (hd :: tl) = hd :: insertDateDesc t tl by
        simp [insertDateDesc, hf]] at h
      cases h with
      | cons _ h2 =>
        rcases ih h2 with h3 | ⟨h3, h4⟩
        · exact Or.inl (h3.cons hd)
        · exact Or.inr ⟨h3, List.mem_cons_of_mem _ h4⟩
      | cons₂ _ h2 =>
        rcases mem_insertDateDesc (List.singleton_sublist.mp h2) with h3 | h3
        · exfalso
          apply hc
          rw [hdate, h3]
          exact strLe_refl _
        · exact Or.inl (List.Sublist.cons₂ _ (List.singleton_sublist.mpr h3))

/-- Stability of the date-descending sort: rows with equal dates are returned
in the relative order of the input, the rowid (insertion) order. -/
theorem sublist_pair_sortDateDesc {a b : TxRow} {m : List TxRow}
    (hdate : a.date = b.date) (h : [a, b].Sublist (sortDateDesc m)) :
    [a, b].Sublist m := by
  induction m with
  | nil => exact h
  | cons hd tl ih =>
    have h2 : [a, b].Sublist (insertDateDesc hd (sortDateDesc tl)) := h
    rcases sublist_pair_insertDateDesc hdate h2 with h3 | ⟨h3, h4⟩
    · exact (ih h3).cons hd
    · rw [h3]
      exact List.Sublist.cons₂ _ (List.singleton_sublist.mpr (mem_sortDateDesc h4))

theorem applyLimitOffset_sublist (lim off : Int) (l : List TxRow) :
    (applyLimitOffset lim off l).Sublist l := by
  simp only [applyLimitOffset]
  split
  · exact List.drop_sublist _ _
  · exact (List.take_sublist _ _).trans (List.drop_sublist _ _)

/-- Rows of equal date appear in the query result in the relative order they
hold in the rowid-ordered transactions table. -/
theorem sublist_pair_txList {a b : TxRow} {db : DB} {uid : Nat}
    {sd ed : Option String} {lim off : Int} (hdate : a.date = b.date)
    (h : [a, b].Sublist (txList db uid sd ed lim off)) :
    [a, b].Sublist db.transactions := by
  have h1 := h.trans (applyLimitOffset_sublist lim off _)
  exact (sublist_pair_sortDateDesc hdate h1).trans (List.filter_sublist _)

theorem find?_append_none {p : UserRow → Bool} {l1 l2 : List UserRow}
    (h : l1.find? p = none) : (l1 ++ l2).find? p = l2.find? p := by
  rw [List.find?_append, h, Option.none_or]

theorem verifyToken_signed_ok {c : TokenClaims} {secret : String} {now : Int}
    (hnow : now < c.exp) :
    verifyToken (.bearer (.signed c secret)) secret now = some c := by
  simp [verifyToken, jwtVerify, jwtDecode, hnow]

theorem verifyToken_signed_expired {c : TokenClaims} {secret : String} {now : Int}
    (hnow : c.exp ≤ now) :
    verifyToken (.bearer (.signed c secret)) secret now = none := by
  simp [verifyToken, jwtVerify, jwtDecode, not_lt.mpr hnow]

theorem fetch_signup_route {req : Req} {env : Env} {db : DB} {now : Int} {salt : Nat}
    (hp : req.path = "/api/auth/signup") (hm : req.method = "POST") :
    fetch req env db now salt = handleSignup req db salt := by
  simp [fetch, hp, hm]

theorem fetch_login_route {req : Req} {env : Env} {db : DB} {now : Int} {salt : Nat}
    (hp : req.path = "/api/auth/login") (hm : req.method = "POST") :
    fetch req env db now salt = handleLogin req env db now := by
  simp [fetch, hp, hm]

theorem fetch_getTx_route {req : Req} {env : Env} {db : DB} {now : Int} {salt : Nat}
    {c : TokenClaims}
    (hp : req.path = "/api/transactions") (hm : req.method = "GET")
    (ha : req.auth = .bearer (.signed c env.JWT_SECRET)) (hnow : now < c.exp) :
    fetch req env db now salt = handleGetTx req c.id db := by
  simp [fetch, hp, hm, ha, verifyToken_signed_ok hnow]

theorem fetch_postTx_route {req : Req} {env : Env} {db : DB} {now : Int} {salt : Nat}
    {c : TokenClaims}
    (hp : req.path = "/api/transactions") (hm : req.method = "POST")
    (ha : req.auth = .bearer (.signed c env.JWT_SECRET)) (hnow : now < c.exp) :
    fetch req env db now salt = handlePostTx req c.id db := by
  simp [fetch, hp, hm, ha, verifyToken_signed_ok hnow]

theorem strFieldMatch_eq_true {v : Option JVal} :
    (match v with
     | some (.str s) => hasNonWs s
     | _ => false) = true ↔ ∃ s, v = some (.str s) ∧ hasNonWs s = true := by
  cases v with
  | none => simp
  | some w => cases w <;> simp

theorem numFieldMatch_eq_true {v : Option JVal} :
    (match v with
     | some (.num _) => true
     | _ => false) = true ↔ ∃ q, v = some (.num q) := by
  cases v with
  | none => simp
  | some w => cases w <;> simp

theorem validateTransaction_eq_true {d : Option JBody} :
    validateTransaction d = true ↔
      dateFieldOk d ∧ amountFieldOk d ∧ typeFieldOk d := by
  cases d with
  | none => simp [validateTransaction, dateFieldOk, amountFieldOk, typeFieldOk, jGet]
  | some b =>
    show ((match b.get "date" with
           | some (.str s) => hasNonWs s
           | _ => false) &&
          (match b.get "amount" with
           | some (.num _) => true
           | _ => false) &&
          (match b.get "type" with
           | some (.str s) => hasNonWs s
           | _ => false)) = true ↔ _
    rw [Bool.and_eq_true, Bool.and_eq_true, strFieldMatch_eq_true, numFieldMatch_eq_true,
      strFieldMatch_eq_true]
    show (_ ∧ _) ∧ _ ↔ _
    rw [and_assoc]
    rfl

theorem handleSignup_ok {req : Req} {db : DB} {salt : Nat} {e p : String}
    (he : jGet req.body "email" = some (.str e))
    (hq : jGet req.body "password" = some (.str p))
    (hve : validateEmail (jGet req.body "email") = true)
    (hvp : validatePassword (jGet req.body "password") = true)
    (hu : usersFindByEmail db e = none)
    (hany : db.users.any (fun u => u.email == e) = false) :
    handleSignup req db salt =
      .ok (⟨201, .msg "User created"⟩, dbAfterSignup db e (bcryptHash p salt)) := by
  rw [handleSignup, hve, hvp]
  simp [bodyStr, he, hq, hu, signupAfterCheck, usersInsert, hany, dbAfterSignup, Except.map]

theorem handleLogin_ok {req : Req} {env : Env} {db : DB} {now : Int} {e p : String}
    {u : UserRow}
    (he : jGet req.body "email" = some (.str e))
    (hq : jGet req.body "password" = some (.str p))
    (hve : validateEmail (jGet req.body "email") = true)
    (hvp : validatePassword (jGet req.body "password") = true)
    (hu : usersFindByEmail db e = some u)
    (hcmp : bcryptCompare p u.password = true) :
    handleLogin req env db now =
      .ok (⟨200, .token (jwtSign ⟨u.id, u.email, now + 7 * 24 * 60 * 60⟩ env.JWT_SECRET)⟩, db) := by
  rw [handleLogin, hve, hvp]
  simp [bodyStr, he, hq, hu, hcmp, jwtSign]

/- The claims. -/

/-- C1: every transaction record in the body of an authenticated
GET /api/transactions response belongs to the user identified by the verified
token claims: the store query is scoped to the id from the token, never to a
caller-supplied user id, so listing transactions for user A never returns a
row owned by user B. -/
theorem claim_C1_user_isolation
    {req : Req} {env : Env} {db : DB} {now : Int} {salt : Nat} {c : TokenClaims}
    (hp : req.path = "/api/transactions") (hm : req.method = "GET")
    (ha : req.auth = .bearer (.signed c env.JWT_SECRET)) (hnow : now < c.exp)
    {resp : Response} {db2 : DB} {l : List TxRow} {lim off cnt : Int}
    (hfetch : fetch req env db now salt = .ok (resp, db2))
    (hbody : resp.body = .txns l lim off cnt)
    {t : TxRow} (hmem : t ∈ l) :
    t.user_id = c.id := by
  rw [fetch_getTx_route hp hm ha hnow, handleGetTx] at hfetch
  cases hl : limitVal (req.searchParams "limit") with
  | none => rw [hl] at hfetch; simp at hfetch
  | some lim2 =>
    cases ho : offsetVal (req.searchParams "offset") with
    | none => rw [hl, ho] at hfetch; simp at hfetch
    | some off2 =>
      rw [hl, ho] at hfetch
      simp only [Except.ok.injEq, Prod.mk.injEq] at hfetch
      rw [← hfetch.1] at hbody
      simp only [RBody.txns.injEq] at hbody
      rw [← hbody.1] at hmem
      exact mem_txList_user_id hmem

/-- C1 witness: in a store holding rows of users 1 and 2, the listing
authenticated as user 2 returns only rows of user 2. -/
theorem claim_C1_user_isolation_witness : txOther.user_id = 2 :=
  @claim_C1_user_isolation
    (getTxReq (.bearer (jwtSign ⟨2, "b@example.com", 100⟩ "test-secret")) noParams)
    cEnv cDbTwoUsers 0 0 ⟨2, "b@example.com", 100⟩
    rfl rfl rfl (by decide)
    ⟨200, .txns [txOther] 50 0 1⟩ cDbTwoUsers [txOther] 50 0 1
    (by decide) rfl txOther (List.mem_singleton.mpr rfl)

/-- C2: the two ways a login can fail authentication, unknown email and wrong
password for a stored email, produce literally the same response: status 401
with the same generic invalid-credentials body, revealing nothing about which
check failed. -/
theorem claim_C2_login_indistinguishable
    {env : Env} {db : DB} {now1 now2 : Int} {salt1 salt2 : Nat}
    {r1 r2 : Req} {e1 p1 e2 p2 : String} {u : UserRow}
    (hp1 : r1.path = "/api/auth/login") (hm1 : r1.method = "POST")
    (he1 : jGet r1.body "email" = some (.str e1))
    (_hq1 : jGet r1.body "password" = some (.str p1))
    (hve1 : validateEmail (jGet r1.body "email") = true)
    (hvp1 : validatePassword (jGet r1.body "password") = true)
    (hu1 : usersFindByEmail db e1 = none)
    (hp2 : r2.path = "/api/auth/login") (hm2 : r2.method = "POST")
    (he2 : jGet r2.body "email" = some (.str e2))
    (hq2 : jGet r2.body "password" = some (.str p2))
    (hve2 : validateEmail (jGet r2.body "email") = true)
    (hvp2 : validatePassword (jGet r2.body "password") = true)
    (hu2 : usersFindByEmail db e2 = some u)
    (hcmp : bcryptCompare p2 u.password = false) :
    fetch r1 env db now1 salt1 = .ok (⟨401, .errMsg "Invalid credentials"⟩, db)
  ∧ fetch r2 env db now2 salt2 = .ok (⟨401, .errMsg "Invalid credentials"⟩, db) := by
  constructor
  · rw [fetch_login_route hp1 hm1, handleLogin, hve1, hvp1]
    simp [bodyStr, he1, hu1]
  · rw [fetch_login_route hp2 hm2, handleLogin, hve2, hvp2]
    simp [bodyStr, he2, hq2, hu2, hcmp]

/-- C2 witness: against a store holding only the user sarah, a login with an
unknown email and a login for sarah with a wrong password both evaluate to
the identical 401 invalid-credentials response. -/
theorem claim_C2_login_indistinguishable_witness :
    fetch (loginReq (authBody "nobody@example.com" "whatever1")) cEnv cDbSarah 0 0 =
      .ok (⟨401, .errMsg "Invalid credentials"⟩, cDbSarah)
  ∧ fetch (loginReq (authBody "sarah@example.com" "wrongpassword")) cEnv cDbSarah 0 0 =
      .ok (⟨401, .errMsg "Invalid credentials"⟩, cDbSarah) :=
  claim_C2_login_indistinguishable
    (u := sarah)
    rfl rfl rfl rfl (by decide) (by decide) (by decide)
    rfl rfl rfl rfl (by decide) (by decide) (by decide) (by decide)

/-- C4: a token issued by a successful login carries the default 7-day TTL,
expiry exactly at the issuance instant plus 7 times 24 times 60 times 60
seconds; verification of the protected-route header succeeds at every instant
strictly before that expiry and fails at every instant at or after it, so the
token is never rejected as expired early. -/
theorem claim_C4_token_expiry
    {env : Env} {db : DB} {now : Int} {salt : Nat} {req : Req} {e p : String} {u : UserRow}
    (hp : req.path = "/api/auth/login") (hm : req.method = "POST")
    (he : jGet req.body "email" = some (.str e))
    (hq : jGet req.body "password" = some (.str p))
    (hve : validateEmail (jGet req.body "email") = true)
    (hvp : validatePassword (jGet req.body "password") = true)
    (hu : usersFindByEmail db e = some u)
    (hcmp : bcryptCompare p u.password = true) :
    fetch req env db now salt =
      .ok (⟨200, .token (jwtSign ⟨u.id, u.email, now + 7 * 24 * 60 * 60⟩ env.JWT_SECRET)⟩, db)
  ∧ ∀ t : Int,
      (t < now + 7 * 24 * 60 * 60 →
        verifyToken (.bearer (jwtSign ⟨u.id, u.email, now + 7 * 24 * 60 * 60⟩ env.JWT_SECRET))
          env.JWT_SECRET t = some ⟨u.id, u.email, now + 7 * 24 * 60 * 60⟩)
    ∧ (now + 7 * 24 * 60 * 60 ≤ t →
        verifyToken (.bearer (jwtSign ⟨u.id, u.email, now + 7 * 24 * 60 * 60⟩ env.JWT_SECRET))
          env.JWT_SECRET t = none) := by
  refine ⟨?_, fun t =>
    ⟨fun ht => verifyToken_signed_ok ht, fun ht => verifyToken_signed_expired ht⟩⟩
  rw [fetch_login_route hp hm]
  exact handleLogin_ok he hq hve hvp hu hcmp

/-- C4 witness: a token issued to sarah at instant 0 verifies at 604799 and
is rejected at 604800, the expiry instant. -/
theorem claim_C4_token_expiry_witness :
    verifyToken (.bearer (jwtSign ⟨1, "sarah@example.com", 0 + 7 * 24 * 60 * 60⟩ "test-secret"))
      "test-secret" 604799 = some ⟨1, "sarah@example.com", 0 + 7 * 24 * 60 * 60⟩
  ∧ verifyToken (.bearer (jwtSign ⟨1, "sarah@example.com", 0 + 7 * 24 * 60 * 60⟩ "test-secret"))
      "test-secret" 604800 = none :=
  ⟨((@claim_C4_token_expiry cEnv cDbSarah 0 0
      (loginReq (authBody "sarah@example.com" "secret456"))
      "sarah@example.com" "secret456" sarah
      rfl rfl (by decide) (by decide) (by decide) (by decide) (by decide)
      (by decide)).2 604799).1 (by decide),
   ((@claim_C4_token_expiry cEnv cDbSarah 0 0
      (loginReq (authBody "sarah@example.com" "secret456"))
      "sarah@example.com" "secret456" sarah
      rfl rfl (by decide) (by decide) (by decide) (by decide) (by decide)
      (by decide)).2 604800).2 (by decide)⟩

/-- C5: for a well-formed unregistered email and a password of length at
least 6, signup answers 201 writing exactly the new user row, the following
login with the same credentials answers 200 with a token, and the token
service accepts that token. -/
theorem claim_C5_signup_then_login
    {env : Env} {db : DB} {e p : String} {now1 now2 : Int} {salt1 salt2 : Nat}
    (hve : emailRegexTest e = true) (hvp : 6 ≤ p.length)
    (hu : usersFindByEmail db e = none) :
    fetch (signupReq (authBody e p)) env db now1 salt1 =
      .ok (⟨201, .msg "User created"⟩, dbAfterSignup db e (bcryptHash p salt1))
  ∧ fetch (loginReq (authBody e p)) env (dbAfterSignup db e (bcryptHash p salt1)) now2 salt2 =
      .ok (⟨200, .token (jwtSign ⟨db.nextUserId, e, now2 + 7 * 24 * 60 * 60⟩ env.JWT_SECRET)⟩,
        dbAfterSignup db e (bcryptHash p salt1))
  ∧ verifyToken (.bearer (jwtSign ⟨db.nextUserId, e, now2 + 7 * 24 * 60 * 60⟩ env.JWT_SECRET))
      env.JWT_SECRET now2 = some ⟨db.nextUserId, e, now2 + 7 * 24 * 60 * 60⟩ := by
  have hany : (db.users.any (fun u => u.email == e)) = false := by
    rw [List.any_eq_false]
    intro x hx
    exact List.find?_eq_none.mp hu x hx
  have hu2 : usersFindByEmail (dbAfterSignup db e (bcryptHash p salt1)) e =
      some ⟨db.nextUserId, e, bcryptHash p salt1⟩ := by
    simp only [usersFindByEmail, dbAfterSignup]
    rw [find?_append_none hu]
    simp
  refine ⟨?_, ?_, verifyToken_signed_ok
    (by show (now2 : Int) < now2 + 7 * 24 * 60 * 60; omega)⟩
  · rw [fetch_signup_route rfl rfl]
    exact handleSignup_ok
      (show jGet (signupReq (authBody e p)).body "email" = some (JVal.str e) from rfl)
      (show jGet (signupReq (authBody e p)).body "password" = some (JVal.str p) from rfl)
      hve (decide_eq_true hvp) hu hany
  · rw [fetch_login_route rfl rfl]
    exact handleLogin_ok
      (show jGet (loginReq (authBody e p)).body "email" = some (JVal.str e) from rfl)
      (show jGet (loginReq (authBody e p)).body "password" = some (JVal.str p) from rfl)
      hve (decide_eq_true hvp) hu2
      (by simp [bcryptCompare, bcryptHash])

/-- C5 witness: signup then login with new@example.com and secret1 on the
empty store, the login token accepted by verifyToken. -/
theorem claim_C5_signup_then_login_witness :
    fetch (signupReq (authBody "new@example.com" "secret1")) cEnv emptyDB 0 1 =
      .ok (⟨201, .msg "User created"⟩,
        dbAfterSignup emptyDB "new@example.com" (bcryptHash "secret1" 1))
  ∧ fetch (loginReq (authBody "new@example.com" "secret1")) cEnv
        (dbAfterSignup emptyDB "new@example.com" (bcryptHash "secret1" 1)) 0 2 =
      .ok (⟨200, .token (jwtSign ⟨1, "new@example.com", 0 + 7 * 24 * 60 * 60⟩ "test-secret")⟩,
        dbAfterSignup emptyDB "new@example.com" (bcryptHash "secret1" 1))
  ∧ verifyToken (.bearer (jwtSign ⟨1, "new@example.com", 0 + 7 * 24 * 60 * 60⟩ "test-secret"))
      "test-secret" 0 = some ⟨1, "new@example.com", 0 + 7 * 24 * 60 * 60⟩ :=
  claim_C5_signup_then_login (by decide) (by decide) (by decide)

/-- C10: a POST to signup, login or transactions whose body is not parseable
JSON gets a 400 validation response with the store untouched: parseJSON
totalizes parsing to null and every handler rejects the null body before any
store call; no exception escapes. -/
theorem claim_C10_unparseable_body
    {env : Env} {db : DB} {now : Int} {salt : Nat}
    {r1 r2 r3 : Req} {c : TokenClaims}
    (h1p : r1.path = "/api/auth/signup") (h1m : r1.method = "POST") (h1b : r1.body = none)
    (h2p : r2.path = "/api/auth/login") (h2m : r2.method = "POST") (h2b : r2.body = none)
    (h3p : r3.path = "/api/transactions") (h3m : r3.method = "POST") (h3b : r3.body = none)
    (h3a : r3.auth = .bearer (.signed c env.JWT_SECRET)) (hnow : now < c.exp) :
    fetch r1 env db now salt = .ok (⟨400, .errMsg "Invalid email or password"⟩, db)
  ∧ fetch r2 env db now salt = .ok (⟨400, .errMsg "Invalid email or password"⟩, db)
  ∧ fetch r3 env db now salt = .ok (⟨400, .errMsg "Invalid transaction data"⟩, db) := by
  refine ⟨?_, ?_, ?_⟩
  · rw [fetch_signup_route h1p h1m, handleSignup, h1b]
    simp [jGet, validateEmail]
  · rw [fetch_login_route h2p h2m, handleLogin, h2b]
    simp [jGet, validateEmail]
  · rw [fetch_postTx_route h3p h3m h3a hnow, handlePostTx, h3b]
    simp [validateTransaction]

/-- C10 witness: the three POST routes each return their 400 validation
response on an unparseable body, with the store unchanged. -/
theorem claim_C10_unparseable_body_witness :
    fetch (signupReq none) cEnv cDbSarah 0 0 =
      .ok (⟨400, .errMsg "Invalid email or password"⟩, cDbSarah)
  ∧ fetch (loginReq none) cEnv cDbSarah 0 0 =
      .ok (⟨400, .errMsg "Invalid email or password"⟩, cDbSarah)
  ∧ fetch (postTxReq (.bearer cTok) none) cEnv cDbSarah 0 0 =
      .ok (⟨400, .errMsg "Invalid transaction data"⟩, cDbSarah) :=
  claim_C10_unparseable_body (c := cClaims)
    rfl rfl rfl rfl rfl rfl rfl rfl rfl rfl (by decide)

/-- C3: evaluation of the duplicate-signup scenarios. Sequentially, a second
signup for the already-registered email answers 409 with no second write and
one row exists. Under the interleaving in which both uniqueness checks
complete before either INSERT, the UNIQUE constraint stops the second write,
so exactly one row exists, but the loser's INSERT rejection escapes the
handler uncaught (an opaque runtime failure) instead of the 409 Conflict the
claim and spec section 7 require. -/
theorem claim_C3_duplicate_signup :
    signupRace emptyDB "dup@example.com"
        (bcryptHash "password123" 1) (bcryptHash "password123" 2) =
      (.ok ⟨201, .msg "User created"⟩, .error .uniqueViolation, cDbDup)
  ∧ (cDbDup.users.filter (fun u => u.email == "dup@example.com")).length = 1
  ∧ fetch (signupReq dupSignupBody) cEnv cDbDup 0 5 =
      .ok (⟨409, .errMsg "Email already registered"⟩, cDbDup) :=
  ⟨by decide, by decide, by decide⟩

/-- C6 as stated fails: validateTransaction checks neither calendar
well-formedness of the date nor the income-expense enumeration of type, so
against a store holding the token's user (id 1, so the foreign-key constraint
is satisfied) a body with date 2025-13-45 and type banana is accepted with
201 and the row is written rather than rejected with 400. -/
theorem claim_C6_counterexample :
    fetch (postTxReq (.bearer cTok) cBadTxBody) cEnv cDbSarah 0 0 =
      .ok (⟨201, .msg "Transaction added"⟩,
        ⟨[sarah], [⟨1, 1, "2025-13-45", .null, .null, 5, "banana"⟩], 2, 2⟩)
  ∧ (201 : Nat) ≠ 400 :=
  ⟨by decide, by decide⟩

/-- C6 amended: an authenticated POST /api/transactions is rejected with the
400 validation response and no row is written whenever the body fails the
checks the code actually performs: date absent, not a string or blank after
trimming, or amount not a number, or type absent, not a string or blank after
trimming. Calendar well-formedness and the income-expense enumeration are not
checked. -/
theorem claim_C6_validation_rejects
    {req : Req} {env : Env} {db : DB} {now : Int} {salt : Nat} {c : TokenClaims}
    (hp : req.path = "/api/transactions") (hm : req.method = "POST")
    (ha : req.auth = .bearer (.signed c env.JWT_SECRET)) (hnow : now < c.exp)
    (hbad : ¬(dateFieldOk req.body ∧ amountFieldOk req.body ∧ typeFieldOk req.body)) :
    fetch req env db now salt = .ok (⟨400, .errMsg "Invalid transaction data"⟩, db) := by
  rw [fetch_postTx_route hp hm ha hnow, handlePostTx]
  have hv : validateTransaction req.body = false := by
    cases h : validateTransaction req.body with
    | false => rfl
    | true => exact absurd (validateTransaction_eq_true.mp h) hbad
  rw [hv]
  simp

/-- C6 amended witness: a body whose amount field holds a string is rejected
with 400 and the store is unchanged. -/
theorem claim_C6_validation_rejects_witness :
    fetch (postTxReq (.bearer cTok) cNoAmountBody) cEnv cDbSpec 0 0 =
      .ok (⟨400, .errMsg "Invalid transaction data"⟩, cDbSpec) :=
  claim_C6_validation_rejects (c := cClaims) rfl rfl rfl (by decide)
    (by rintro ⟨-, ⟨q, hq⟩, -⟩
        rw [show jGet (postTxReq (AuthHeader.bearer cTok) cNoAmountBody).body "amount" =
          some (JVal.str "5") from rfl] at hq
        simp at hq)

/-- C7 as stated fails: a negative offset is not rejected with a validation
error; the request succeeds with 200. -/
theorem claim_C7_counterexample :
    fetch (getTxReq (.bearer cTok) (mkParams none (some "-7") none none)) cEnv cDbTie 0 0 =
      .ok (⟨200, .txns [txT1, txT2] 50 (-7) 2⟩, cDbTie)
  ∧ (200 : Nat) ≠ 400 :=
  ⟨by decide, by decide⟩

/-- C7 amended: limit defaults to 50 when the parameter is absent and is
clamped to 100 when it parses above 100, the request succeeding either way;
offset defaults to 0 when absent; a negative offset is NOT rejected: the
request succeeds with 200 and the negative OFFSET acts as zero. -/
theorem claim_C7_pagination
    {req : Req} {env : Env} {db : DB} {now : Int} {salt : Nat} {c : TokenClaims}
    (hp : req.path = "/api/transactions") (hm : req.method = "GET")
    (ha : req.auth = .bearer (.signed c env.JWT_SECRET)) (hnow : now < c.exp) :
    ((req.searchParams "limit" = none) → (req.searchParams "offset" = none) →
      fetch req env db now salt = .ok
        (⟨200, .txns
            (txList db c.id (presentParam (req.searchParams "startDate"))
              (presentParam (req.searchParams "endDate")) 50 0)
            50 0
            ((txList db c.id (presentParam (req.searchParams "startDate"))
              (presentParam (req.searchParams "endDate")) 50 0).length : Int)⟩, db))
  ∧ (∀ s n om, req.searchParams "limit" = some s → parseIntJS s = some n → 100 < n →
      offsetVal (req.searchParams "offset") = some om →
      fetch req env db now salt = .ok
        (⟨200, .txns
            (txList db c.id (presentParam (req.searchParams "startDate"))
              (presentParam (req.searchParams "endDate")) 100 om)
            100 om
            ((txList db c.id (presentParam (req.searchParams "startDate"))
              (presentParam (req.searchParams "endDate")) 100 om).length : Int)⟩, db))
  ∧ (∀ s o lm, req.searchParams "offset" = some s → parseIntJS s = some o → o < 0 →
      limitVal (req.searchParams "limit") = some lm →
      fetch req env db now salt = .ok
        (⟨200, .txns
            (txList db c.id (presentParam (req.searchParams "startDate"))
              (presentParam (req.searchParams "endDate")) lm o)
            lm o
            ((txList db c.id (presentParam (req.searchParams "startDate"))
              (presentParam (req.searchParams "endDate")) lm o).length : Int)⟩, db)
      ∧ txList db c.id (presentParam (req.searchParams "startDate"))
            (presentParam (req.searchParams "endDate")) lm o =
          txList db c.id (presentParam (req.searchParams "startDate"))
            (presentParam (req.searchParams "endDate")) lm 0) := by
  refine ⟨?_, ?_, ?_⟩
  · intro hlp hop
    rw [fetch_getTx_route hp hm ha hnow, handleGetTx, hlp, hop,
      (by decide : limitVal none = some 50), (by decide : offsetVal none = some 0)]
  · intro s n om hs hn hgt hov
    have hne : s.isEmpty = false := by
      cases hie : s.isEmpty with
      | false => rfl
      | true =>
        rw [(String.isEmpty_iff s).mp hie,
          (by decide : parseIntJS "" = (none : Option Int))] at hn
        exact Option.noConfusion hn
    have hlim : limitVal (req.searchParams "limit") = some 100 := by
      rw [hs, limitVal, orDefault, hne]
      simp [hn, min_eq_right hgt.le]
    rw [fetch_getTx_route hp hm ha hnow, handleGetTx, hlim, hov]
  · intro s o lm hs hn ho hlv
    have hne : s.isEmpty = false := by
      cases hie : s.isEmpty with
      | false => rfl
      | true =>
        rw [(String.isEmpty_iff s).mp hie,
          (by decide : parseIntJS "" = (none : Option Int))] at hn
        exact Option.noConfusion hn
    have hoff : offsetVal (req.searchParams "offset") = some o := by
      rw [hs, offsetVal, orDefault, hne]
      simp [hn]
    refine ⟨?_, ?_⟩
    · rw [fetch_getTx_route hp hm ha hnow, handleGetTx, hlv, hoff]
    · simp [txList, applyLimitOffset, max_eq_right ho.le]

/-- C7 amended witness: absent parameters default to limit 50 and offset 0,
a limit of 500 is clamped to 100 with the request succeeding, and an offset
of minus five succeeds with 200 and acts as offset 0. -/
theorem claim_C7_pagination_witness :
    fetch (getTxReq (.bearer cTok) noParams) cEnv cDbSpec 0 0 =
      .ok (⟨200, .txns [txNeg150, tx1200] 50 0 2⟩, cDbSpec)
  ∧ fetch (getTxReq (.bearer cTok) (mkParams (some "500") none none none)) cEnv cDbSpec 0 0 =
      .ok (⟨200, .txns [txNeg150, tx1200] 100 0 2⟩, cDbSpec)
  ∧ fetch (getTxReq (.bearer cTok) (mkParams none (some "-5") none none)) cEnv cDbSpec 0 0 =
      .ok (⟨200, .txns [txNeg150, tx1200] 50 (-5) 2⟩, cDbSpec) :=
  by
  refine ⟨?_, ?_, ?_⟩
  · rw [(@claim_C7_pagination (getTxReq (.bearer cTok) noParams) cEnv cDbSpec 0 0 cClaims
      rfl rfl rfl (by decide)).1 rfl rfl]
    decide
  · rw [(@claim_C7_pagination (getTxReq (.bearer cTok) (mkParams (some "500") none none none))
      cEnv cDbSpec 0 0 cClaims
      rfl rfl rfl (by decide)).2.1 "500" 500 0 rfl (by decide) (by decide) (by decide)]
    decide
  · rw [((@claim_C7_pagination (getTxReq (.bearer cTok) (mkParams none (some "-5") none none))
      cEnv cDbSpec 0 0 cClaims
      rfl rfl rfl (by decide)).2.2 "-5" (-5) 50 rfl (by decide) (by decide) (by decide)).1]
    decide

/-- C8 as stated fails: startDate strictly greater than endDate is not
rejected with a validation error; the code answers 200 and returns an empty
transaction list, the store holding a row dated between the two bounds. -/
theorem claim_C8_counterexample :
    fetch (getTxReq (.bearer cTok) (mkParams none none (some "2025-09-05") (some "2025-09-01")))
      cEnv cDbSpec 0 0 = .ok (⟨200, .txns [] 50 0 0⟩, cDbSpec)
  ∧ (200 : Nat) ≠ 400 :=
  ⟨by decide, by decide⟩

/-- C8 amended: when both date filters are given and startDate is strictly
greater than endDate the request is NOT rejected: the two inclusive bounds
are applied conjunctively, no row satisfies them, and the response is 200
with an empty list; the bounds are never swapped. -/
theorem claim_C8_inverted_range
    {req : Req} {env : Env} {db : DB} {now : Int} {salt : Nat} {c : TokenClaims}
    (hp : req.path = "/api/transactions") (hm : req.method = "GET")
    (ha : req.auth = .bearer (.signed c env.JWT_SECRET)) (hnow : now < c.exp)
    {s e : String}
    (hsp : req.searchParams "startDate" = some s)
    (hep : req.searchParams "endDate" = some e)
    (hse : s.isEmpty = false) (hee : e.isEmpty = false)
    (hgt : strLe s e = false)
    (hlp : req.searchParams "limit" = none) (hop : req.searchParams "offset" = none) :
    fetch req env db now salt = .ok (⟨200, .txns [] 50 0 0⟩, db) := by
  rw [fetch_getTx_route hp hm ha hnow, handleGetTx, hlp, hop, hsp, hep,
    (by decide : limitVal none = some 50), (by decide : offsetVal none = some 0)]
  have hfil : db.transactions.filter
      (fun t => t.user_id == c.id &&
        dateFilterOk (presentParam (some s)) (presentParam (some e)) t) = [] := by
    rw [List.filter_eq_nil_iff]
    intro t ht
    intro hpred
    simp only [presentParam, hse, hee, Bool.false_eq_true, if_false, dateFilterOk,
      Bool.and_eq_true] at hpred
    have := strLe_trans hpred.2.1 hpred.2.2
    rw [hgt] at this
    exact Bool.false_ne_true this
  simp only [txList, hfil]
  rfl

/-- C8 amended witness: inverted bounds over the two-user store evaluate to
the 200 response with the empty list. -/
theorem claim_C8_inverted_range_witness :
    fetch (getTxReq (.bearer cTok) (mkParams none none (some "2025-12-31") (some "2025-01-01")))
      cEnv cDbTwoUsers 0 0 = .ok (⟨200, .txns [] 50 0 0⟩, cDbTwoUsers) :=
  claim_C8_inverted_range (c := cClaims) rfl rfl rfl (by decide) rfl rfl
    (by decide) (by decide) (by decide) rfl rfl

/-- C9 as stated fails on ties: two rows of one user share the date
2025-09-01, the earlier insert txT1 having rowid 1 and the later txT2 rowid
2; the code returns txT1 before txT2, insertion order ascending, while the
claim requires the most recently inserted first. -/
theorem claim_C9_counterexample :
    fetch (getTxReq (.bearer cTok) noParams) cEnv cDbTie 0 0 =
      .ok (⟨200, .txns [txT1, txT2] 50 0 2⟩, cDbTie)
  ∧ txT1 ≠ txT2 :=
  ⟨by decide, by decide⟩

/-- C9 amended: every authenticated listing is ordered by date descending,
but ties on equal dates are returned in insertion order ascending, oldest
insert first: any equal-date pair appears in the response in the relative
order it holds in the rowid-ordered transactions table, since the query has
no secondary sort key; the concrete example holds: the 2025-09-03 expense is
returned before the 2025-09-01 income. -/
theorem claim_C9_ordering
    {req : Req} {env : Env} {db : DB} {now : Int} {salt : Nat} {c : TokenClaims}
    (hp : req.path = "/api/transactions") (hm : req.method = "GET")
    (ha : req.auth = .bearer (.signed c env.JWT_SECRET)) (hnow : now < c.exp)
    {resp : Response} {db2 : DB} {l : List TxRow} {lim off cnt : Int}
    (hfetch : fetch req env db now salt = .ok (resp, db2))
    (hbody : resp.body = .txns l lim off cnt) :
    l.Pairwise txAfter
  ∧ (∀ a b : TxRow, a.date = b.date → [a, b].Sublist l →
      [a, b].Sublist db.transactions)
  ∧ fetch (getTxReq (.bearer cTok) noParams) cEnv cDbSpec 0 0 =
      .ok (⟨200, .txns [txNeg150, tx1200] 50 0 2⟩, cDbSpec)
  ∧ fetch (getTxReq (.bearer cTok) noParams) cEnv cDbTie 0 0 =
      .ok (⟨200, .txns [txT1, txT2] 50 0 2⟩, cDbTie) := by
  rw [fetch_getTx_route hp hm ha hnow, handleGetTx] at hfetch
  cases hl : limitVal (req.searchParams "limit") with
  | none => rw [hl] at hfetch; simp at hfetch
  | some lim2 =>
    cases ho : offsetVal (req.searchParams "offset") with
    | none => rw [hl, ho] at hfetch; simp at hfetch
    | some off2 =>
      rw [hl, ho] at hfetch
      simp only [Except.ok.injEq, Prod.mk.injEq] at hfetch
      rw [← hfetch.1] at hbody
      simp only [RBody.txns.injEq] at hbody
      refine ⟨?_, ?_, by decide, by decide⟩
      · rw [← hbody.1]
        exact pairwise_txList
      · intro a b hdate hsub
        rw [← hbody.1] at hsub
        exact sublist_pair_txList hdate hsub

/-- C9 amended witness: the spec-example response list is date-descending. -/
theorem claim_C9_ordering_witness : ([txNeg150, tx1200] : List TxRow).Pairwise txAfter :=
  (@claim_C9_ordering (getTxReq (.bearer cTok) noParams) cEnv cDbSpec 0 0 cClaims
    rfl rfl rfl (by decide)
    ⟨200, .txns [txNeg150, tx1200] 50 0 2⟩ cDbSpec [txNeg150, tx1200] 50 0 2
    (by decide) rfl).1

end IH2
